import Mathlib

/-!
Verification of the HTTP execution core of the monimejs client library
(`src/http-client.js` together with the error classes of `src/errors.ts`).

The embedding models:
* JSON values as parsed by the client (`Json`); a JavaScript `undefined`
  is represented by `Option Json` being `none`;
* the error taxonomy of `errors.ts` (`JsError`);
* `parse_retry_after`, `is_retryable_error`, `calculate_retry_delay`,
  `build_url`, `build_headers`, `execute_request` and `execute_with_retry`
  of `MonimeHttpClient`.

Effects are made explicit: the network transport is an oracle
`attempts : Nat → Attempt` giving the outcome of each fetch together with
the observed state of the two abort signals, `Math.random()` is an oracle
`rnd : Nat → ℚ`, `Date.parse`/`Date.now` form an `Env`, and
`crypto.randomUUID()` is an injected string.  The retry loop returns a
`RunResult` trace recording the outcome, the number of attempts performed,
the delays slept between attempts and the headers sent on each attempt.
-/

set_option autoImplicit false

namespace Monime

/-- JSON values, as produced by `res.json()` / `JSON.parse`.
JavaScript `undefined` is not a JSON value; a possibly-undefined value is
an `Option Json`. Numbers are modelled as integers (all numbers the client
itself manufactures — status codes, retry-after milliseconds — are integers). -/
inductive Json where
  | null
  | bool (b : Bool)
  | num (n : Int)
  | str (s : String)
  | arr (elems : List Json)
  | obj (fields : List (String × Json))

mutual

def Json.decEq : (a b : Json) → Decidable (a = b)
  | .null, .null => .isTrue rfl
  | .bool x, .bool y =>
    if h : x = y then .isTrue (by rw [h])
    else .isFalse (by intro he; injection he; contradiction)
  | .num x, .num y =>
    if h : x = y then .isTrue (by rw [h])
    else .isFalse (by intro he; injection he; contradiction)
  | .str x, .str y =>
    if h : x = y then .isTrue (by rw [h])
    else .isFalse (by intro he; injection he; contradiction)
  | .arr xs, .arr ys =>
    match Json.decEqList xs ys with
    | .isTrue h => .isTrue (by rw [h])
    | .isFalse h => .isFalse (by intro he; injection he; contradiction)
  | .obj xs, .obj ys =>
    match Json.decEqFields xs ys with
    | .isTrue h => .isTrue (by rw [h])
    | .isFalse h => .isFalse (by intro he; injection he; contradiction)
  | .null, .bool _ => .isFalse fun h => Json.noConfusion h
  | .null, .num _ => .isFalse fun h => Json.noConfusion h
  | .null, .str _ => .isFalse fun h => Json.noConfusion h
  | .null, .arr _ => .isFalse fun h => Json.noConfusion h
  | .null, .obj _ => .isFalse fun h => Json.noConfusion h
  | .bool _, .null => .isFalse fun h => Json.noConfusion h
  | .bool _, .num _ => .isFalse fun h => Json.noConfusion h
  | .bool _, .str _ => .isFalse fun h => Json.noConfusion h
  | .bool _, .arr _ => .isFalse fun h => Json.noConfusion h
  | .bool _, .obj _ => .isFalse fun h => Json.noConfusion h
  | .num _, .null => .isFalse fun h => Json.noConfusion h
  | .num _, .bool _ => .isFalse fun h => Json.noConfusion h
  | .num _, .str _ => .isFalse fun h => Json.noConfusion h
  | .num _, .arr _ => .isFalse fun h => Json.noConfusion h
  | .num _, .obj _ => .isFalse fun h => Json.noConfusion h
  | .str _, .null => .isFalse fun h => Json.noConfusion h
  | .str _, .bool _ => .isFalse fun h => Json.noConfusion h
  | .str _, .num _ => .isFalse fun h => Json.noConfusion h
  | .str _, .arr _ => .isFalse fun h => Json.noConfusion h
  | .str _, .obj _ => .isFalse fun h => Json.noConfusion h
  | .arr _, .null => .isFalse fun h => Json.noConfusion h
  | .arr _, .bool _ => .isFalse fun h => Json.noConfusion h
  | .arr _, .num _ => .isFalse fun h => Json.noConfusion h
  | .arr _, .str _ => .isFalse fun h => Json.noConfusion h
  | .arr _, .obj _ => .isFalse fun h => Json.noConfusion h
  | .obj _, .null => .isFalse fun h => Json.noConfusion h
  | .obj _, .bool _ => .isFalse fun h => Json.noConfusion h
  | .obj _, .num _ => .isFalse fun h => Json.noConfusion h
  | .obj _, .str _ => .isFalse fun h => Json.noConfusion h
  | .obj _, .arr _ => .isFalse fun h => Json.noConfusion h

def Json.decEqList : (a b : List Json) → Decidable (a = b)
  | [], [] => .isTrue rfl
  | [], _ :: _ => .isFalse fun h => List.noConfusion h
  | _ :: _, [] => .isFalse fun h => List.noConfusion h
  | x :: xs, y :: ys =>
    match Json.decEq x y with
    | .isFalse h => .isFalse (by intro he; injection he; contradiction)
    | .isTrue h1 =>
      match Json.decEqList xs ys with
      | .isTrue h2 => .isTrue (by rw [h1, h2])
      | .isFalse h => .isFalse (by intro he; injection he; contradiction)

def Json.decEqFields : (a b : List (String × Json)) → Decidable (a = b)
  | [], [] => .isTrue rfl
  | [], _ :: _ => .isFalse fun h => List.noConfusion h
  | _ :: _, [] => .isFalse fun h => List.noConfusion h
  | (k1, v1) :: xs, (k2, v2) :: ys =>
    if hk : k1 = k2 then
      match Json.decEq v1 v2 with
      | .isFalse h => .isFalse (by intro he; injection he with he1 he2; injection he1; contradiction)
      | .isTrue hv =>
        match Json.decEqFields xs ys with
        | .isTrue h2 => .isTrue (by rw [hk, hv, h2])
        | .isFalse h => .isFalse (by intro he; injection he; contradiction)
    else .isFalse (by intro he; injection he with he1 he2; injection he1; contradiction)

end

instance : DecidableEq Json := Json.decEq

/-- JavaScript truthiness of a JSON value (`if (v)`). -/
def Json.truthy : Json → Bool
  | .null => false
  | .bool b => b
  | .num n => n != 0
  | .str s => s != ""
  | .arr _ => true
  | .obj _ => true

/-- Property access `v.k` on a (non-null, non-undefined) JavaScript value:
`undefined` (`none`) unless `v` is an object with field `k`. -/
def Json.getProp : Json → String → Option Json
  | .obj fields, k => fields.lookup k
  | _, _ => none

/-- Truthiness of a possibly-undefined value (`undefined` is falsy). -/
def truthyOpt : Option Json → Bool
  | none => false
  | some j => j.truthy

/-- The error taxonomy of `errors.ts`, plus `generic` for raw JavaScript
errors (identified by their `name`, e.g. `"AbortError"`).  The four fields
of `MonimeApiError` are possibly-undefined JavaScript values because the
client copies them straight out of the parsed response body. -/
inductive JsError where
  | monimeApi (message code reason details : Option Json) (retryAfter : Option Int)
  | monimeTimeout (timeout : ℚ) (url : String)
  | monimeNetwork (message : String)
  | monimeValidation (message field : String)
  | generic (name message : String)
deriving DecidableEq

/-- The `name` property of an error object (each class sets `this.name`). -/
def JsError.errName : JsError → String
  | .monimeApi _ _ _ _ _ => "MonimeApiError"
  | .monimeTimeout _ _ => "MonimeTimeoutError"
  | .monimeNetwork _ => "MonimeNetworkError"
  | .monimeValidation _ _ => "MonimeValidationError"
  | .generic n _ => n

/-- Model of `error instanceof MonimeTimeoutError`. -/
def JsError.isTimeoutErr : JsError → Bool
  | .monimeTimeout _ _ => true
  | _ => false

/-- Model of `MonimeApiError.isRetryable` (errors.ts): strict-equality comparison of
`this.code` against 429, 500, 502, 503, 504. -/
def apiIsRetryable (code : Option Json) : Bool :=
  code == some (.num 429) || code == some (.num 500) || code == some (.num 502) ||
    code == some (.num 503) || code == some (.num 504)

/-- Model of `MonimeHttpClient.is_retryable_error`: network errors are retryable,
API errors defer to `isRetryable`, everything else (including errors named
`"AbortError"`) is not. -/
def is_retryable_error : JsError → Bool
  | .monimeNetwork _ => true
  | .monimeApi _ code _ _ _ => apiIsRetryable code
  | _ => false

/-- Value of the longest decimal-digit prefix, `none` when there is no digit
(the `NaN` case of `Number.parseInt`). -/
def digitsVal (cs : List Char) : Option Nat :=
  let ds := cs.takeWhile Char.isDigit
  if ds.isEmpty then none
  else some (ds.foldl (fun a c => a * 10 + (c.toNat - 48)) 0)

/-- Model of `Number.parseInt(s, 10)`: skip leading whitespace, optional sign, then the
longest digit prefix (trailing garbage ignored); `none` models `NaN`. -/
def parseIntJS (s : String) : Option Int :=
  let cs := s.toList.dropWhile (fun c => c = ' ' || c = '\t' || c = '\n' || c = '\r')
  match cs with
  | '-' :: rest => (digitsVal rest).map (fun n => -(n : Int))
  | '+' :: rest => (digitsVal rest).map (fun n => (n : Int))
  | _ => (digitsVal cs).map (fun n => (n : Int))

/-- The ambient JavaScript date facilities used by `parse_retry_after`:
`Date.parse` (returning milliseconds since epoch, `none` for `NaN`) and
`Date.now()`. -/
structure Env where
  dateParse : String → Option Int
  now : Int

/-- Model of `MonimeHttpClient.parse_retry_after` on the value of the `Retry-After`
header (`none` when the header is absent; `headers.get` returns `null` then,
and both `null` and the empty string are falsy). Integer form: seconds × 1000,
used even when ≤ 0. Date form: `date - Date.now()`, clamped to `none` when
non-positive. -/
def parse_retry_after (env : Env) (header : Option String) : Option Int :=
  match header with
  | none => none
  | some s =>
    if s = "" then none
    else
      match parseIntJS s with
      | some n => some (n * 1000)
      | none =>
        match env.dateParse s with
        | some date => let delay := date - env.now; if delay > 0 then some delay else none
        | none => none

/-- Model of `MonimeHttpClient.calculate_retry_delay`: a parsed retry-after value on an
API error is used verbatim; otherwise exponential backoff plus jitter.
`rnd` is the value of `Math.random()`, in `[0, 1)`. -/
def calculate_retry_delay (retry_delay retry_backoff : ℚ) (retry_index : Nat)
    (error : JsError) (rnd : ℚ) : ℚ :=
  match error with
  | .monimeApi _ _ _ _ (some ra) => (ra : ℚ)
  | _ => retry_delay * retry_backoff ^ retry_index + rnd * 500

/-- Outcome of one `fetch` call: either a response (with status, status text,
the value of the `Retry-After` header, and the parsed JSON body — `none` when
`res.json()` rejects) or a raw JavaScript error identified by name
(e.g. an `"AbortError"` `DOMException`, or a `TypeError` for transport
failures). -/
inductive FetchOutcome where
  | response (status : Nat) (statusText : String) (retryAfterHeader : Option String)
      (body : Option Json)
  | jsRaw (name message : String) (isTypeError : Bool)

/-- One attempt as observed by the executor: the fetch outcome together with
the state of the two abort signals at the moment the error (if any) is
handled — `timerAborted` is `timeout_controller?.signal.aborted`,
`extAborted` is the external signal's `aborted` flag. -/
structure Attempt where
  fetch : FetchOutcome
  timerAborted : Bool
  extAborted : Bool

/-- What the `try` block of `execute_request` produces before the `catch`
clause runs: either the parsed body of a 2xx response, a thrown
already-classified Monime error, or a thrown raw JavaScript error. -/
inductive Thrown where
  | classified (e : JsError)
  | raw (name message : String) (isTypeError : Bool)

/-- The `try` block of `MonimeHttpClient.execute_request`: await `fetch`,
parse JSON (a parse failure becomes an `invalid_json` `MonimeApiError`), and
classify non-2xx statuses.  On a non-2xx response with body `null`, the
JavaScript expression `error_response.error` throws a `TypeError`
(property access on `null`), which surfaces as a raw error here. -/
def tryExecute (env : Env) (fetchResult : FetchOutcome) : Except Thrown Json :=
  match fetchResult with
  | .jsRaw n m t => .error (.raw n m t)
  | .response status statusText retryAfterHeader body =>
    match body with
    | none =>
      .error (.classified (.monimeApi
        (some (.str ("Invalid JSON response from server: " ++ toString status ++ " " ++ statusText)))
        (some (.num status)) (some (.str "invalid_json")) (some (.arr [])) none))
    | some data =>
      if 200 ≤ status ∧ status < 300 then
        .ok data
      else
        let retry_after := parse_retry_after env retryAfterHeader
        match data with
        | .null =>
          .error (.raw "TypeError" "Cannot read properties of null (reading 'error')" true)
        | _ =>
          if truthyOpt (data.getProp "error") then
            let errVal := (data.getProp "error").getD .null
            .error (.classified (.monimeApi (errVal.getProp "message") (errVal.getProp "code")
              (errVal.getProp "reason") (errVal.getProp "details") retry_after))
          else
            .error (.classified (.monimeApi
              (some (.str ("HTTP " ++ toString status ++ ": " ++ statusText)))
              (some (.num status)) (some (.str "http_error")) (some (.arr [])) retry_after))

/-- The `catch` clause of `MonimeHttpClient.execute_request`: rethrow
classified Monime errors; reclassify an `"AbortError"` as a
`MonimeTimeoutError` exactly when the timer signal is aborted and the
external signal (if any) is not; wrap a `TypeError` as a
`MonimeNetworkError`; rethrow anything else. -/
def classifyCatch (timeout : ℚ) (url : String) (hasExternal : Bool) (a : Attempt) :
    Thrown → JsError
  | .classified e => e
  | .raw n m isTypeError =>
    if n = "AbortError" then
      if (0 < timeout ∧ a.timerAborted = true) ∧ ¬(hasExternal = true ∧ a.extAborted = true) then
        .monimeTimeout timeout url
      else .generic n m
    else if isTypeError then .monimeNetwork ("Network error: " ++ m)
    else .generic n m

/-- Model of `MonimeHttpClient.execute_request` for one attempt: the `try` block with
its `catch` classification.  The timer controller exists only when the
effective timeout is positive, hence the `0 < timeout` conjunct in
`classifyCatch`. -/
def execute_request (env : Env) (timeout : ℚ) (url : String) (hasExternal : Bool)
    (a : Attempt) : Except JsError Json :=
  (tryExecute env a.fetch).mapError (classifyCatch timeout url hasExternal a)

/-- The immutable client configuration (`MonimeHttpClient` fields after the
constructor has applied defaults). -/
structure ClientCfg where
  base_url : String
  space_id : String
  access_token : String
  timeout : ℚ
  retries : Nat
  retry_delay : ℚ
  retry_backoff : ℚ

/-- Trace of one logical call: the final outcome, how many attempts were
performed, the delays slept between consecutive attempts, and the header
list handed to `fetch` on each attempt (in order). -/
structure RunResult where
  result : Except JsError Json
  attemptsMade : Nat
  delays : List ℚ
  sentHeaders : List (List (String × String))

/-- One iteration step plus the rest of the `for` loop of
`MonimeHttpClient.execute_with_retry`, starting at attempt number `k`.
`fuel` counts the loop iterations still permitted (`total - k + 1` at the
call site); the `fuel = 0` base case is the unreachable
`throw last_error ?? new Error(...)` line after the loop. -/
def retryGo (cfg : ClientCfg) (env : Env) (url : String)
    (headers : List (String × String)) (timeout : ℚ) (total : Nat) (hasExternal : Bool)
    (attempts : Nat → Attempt) (rnd : Nat → ℚ) : Nat → Nat → RunResult
  | _, 0 => ⟨.error (.generic "Error" "Unknown error during retry"), 0, [], []⟩
  | k, fuel + 1 =>
    let a := attempts k
    match execute_request env timeout url hasExternal a with
    | .ok v => ⟨.ok v, 1, [], [headers]⟩
    | .error e =>
      if e.errName = "AbortError" ∧ hasExternal = true ∧ a.extAborted = true then
        ⟨.error e, 1, [], [headers]⟩
      else if e.isTimeoutErr = true then
        ⟨.error e, 1, [], [headers]⟩
      else if ¬is_retryable_error e = true ∨ k = total then
        ⟨.error e, 1, [], [headers]⟩
      else
        let delay := calculate_retry_delay cfg.retry_delay cfg.retry_backoff (k - 1) e (rnd k)
        let rest := retryGo cfg env url headers timeout total hasExternal attempts rnd (k + 1) fuel
        ⟨rest.result, rest.attemptsMade + 1, delay :: rest.delays, headers :: rest.sentHeaders⟩

/-- Model of `MonimeHttpClient.execute_with_retry`: at most `1 + max_retries`
attempts, numbered from 1. -/
def execute_with_retry (cfg : ClientCfg) (env : Env) (url : String)
    (headers : List (String × String)) (timeout : ℚ) (max_retries : Nat)
    (hasExternal : Bool) (attempts : Nat → Attempt) (rnd : Nat → ℚ) : RunResult :=
  retryGo cfg env url headers timeout (1 + max_retries) hasExternal attempts rnd 1 (1 + max_retries)

/-- API version segment inserted between the base URL and every path. -/
def API_VERSION : String := "v1"

/-- Uppercase hexadecimal digit for `n < 16`. -/
def hexDigit (n : Nat) : Char :=
  if n < 10 then Char.ofNat (48 + n) else Char.ofNat (55 + n)

/-- UTF-8 bytes of a character, as natural numbers. -/
def utf8Bytes (c : Char) : List Nat :=
  let n := c.toNat
  if n < 128 then [n]
  else if n < 2048 then [192 + n / 64, 128 + n % 64]
  else if n < 65536 then [224 + n / 4096, 128 + n / 64 % 64, 128 + n % 64]
  else [240 + n / 262144, 128 + n / 4096 % 64, 128 + n / 64 % 64, 128 + n % 64]

/-- Model of `application/x-www-form-urlencoded` escaping of one character, as done by
`URLSearchParams.toString`: space becomes `+`, ASCII alphanumerics and
`*-._` stay, everything else is percent-encoded per UTF-8 byte. -/
def formEncodeChar (c : Char) : String :=
  if c = ' ' then "+"
  else if c.isAlphanum ∨ c = '*' ∨ c = '-' ∨ c = '.' ∨ c = '_' then String.singleton c
  else String.join ((utf8Bytes c).map (fun b => "%" ++ String.mk [hexDigit (b / 16), hexDigit (b % 16)]))

/-- Model of `application/x-www-form-urlencoded` escaping of a string. -/
def formEncode (s : String) : String :=
  String.join (s.toList.map formEncodeChar)

/-- Model of `URLSearchParams.set`: replace the value of an existing key in place,
else append the pair. -/
def searchParamsSet (l : List (String × String)) (k v : String) : List (String × String) :=
  if l.any (fun p => p.1 = k) then l.map (fun p => if p.1 = k then (k, v) else p)
  else l ++ [(k, v)]

/-- Model of `URLSearchParams.toString`: `k=v` pairs joined with `&`, both sides
form-encoded. -/
def searchParamsToString (l : List (String × String)) : String :=
  String.intercalate "&" (l.map (fun p => formEncode p.1 ++ "=" ++ formEncode p.2))

/-- A defined query-parameter value (`string | number | boolean`). -/
inductive ParamVal where
  | str (s : String)
  | num (n : Int)
  | bool (b : Bool)

/-- JavaScript `String(value)` on a parameter value. -/
def ParamVal.jsString : ParamVal → String
  | .str s => s
  | .num n => toString n
  | .bool b => if b then "true" else "false"

/-- Model of `MonimeHttpClient.build_url`: base URL, `/v1`, the path, then the query
string built by `URLSearchParams.set` over the entries whose value is not
`undefined`; the `?` is appended only when the query string is non-empty.
`params` is the entry list of the params object (`none` = no params object;
an entry's `none` value = `undefined`). -/
def build_url (base_url path : String) (params : Option (List (String × Option ParamVal))) :
    String :=
  let url := base_url ++ "/" ++ API_VERSION ++ path
  match params with
  | none => url
  | some ps =>
    let search_params := ps.foldl
      (fun acc p =>
        match p.2 with
        | none => acc
        | some v => searchParamsSet acc p.1 v.jsString) []
    let query_string := searchParamsToString search_params
    if query_string = "" then url else url ++ "?" ++ query_string

/-- Model of `MonimeHttpClient.build_headers`: the two auth headers, `Content-Type`
when a body is present, and for POST an `Idempotency-Key` that is the
caller-supplied key or a freshly generated UUID (`uuid`). -/
def build_headers (space_id access_token method : String) (body : Option Json)
    (idempotency_key : Option String) (uuid : String) : List (String × String) :=
  let headers := [("Monime-Space-Id", space_id), ("Authorization", "Bearer " ++ access_token)]
  let headers := if body.isSome then headers ++ [("Content-Type", "application/json")] else headers
  if method = "POST" then headers ++ [("Idempotency-Key", idempotency_key.getD uuid)]
  else headers

/-- Per-request configuration overrides (`RequestConfig`).  The external
abort signal is modelled by the flag `hasSignal` (its firing is observed
through `Attempt.extAborted`). -/
structure RequestConfig where
  timeout : Option ℚ
  retries : Option Nat
  hasSignal : Bool
  idempotencyKey : Option String

/-- The argument of `MonimeHttpClient.request`. -/
structure RequestOptions where
  method : String
  path : String
  body : Option Json
  params : Option (List (String × Option ParamVal))
  config : Option RequestConfig

/-- Model of `MonimeHttpClient.request`: compute the effective timeout and retry
budget (per-call override else client default), build the URL and headers
once, then run the retry loop with those fixed headers. -/
def request (cfg : ClientCfg) (env : Env) (opts : RequestOptions) (uuid : String)
    (attempts : Nat → Attempt) (rnd : Nat → ℚ) : RunResult :=
  let timeout := (opts.config.bind (fun c => c.timeout)).getD cfg.timeout
  let max_retries := (opts.config.bind (fun c => c.retries)).getD cfg.retries
  let hasExternal := (opts.config.map (fun c => c.hasSignal)).getD false
  let idempotency_key := opts.config.bind (fun c => c.idempotencyKey)
  let url := build_url cfg.base_url opts.path opts.params
  let headers := build_headers cfg.space_id cfg.access_token opts.method opts.body
    idempotency_key uuid
  execute_with_retry cfg env url headers timeout max_retries hasExternal attempts rnd

/-! ### Concrete example inputs (used by the witnesses) -/

/-- Example client configuration: timeout 1000, 2 retries, delay 100, backoff 2. -/
def exCfg : ClientCfg :=
  ⟨"https://api.monime.io", "sid", "tok", 1000, 2, 100, 2⟩

/-- Example environment whose `Date.parse` always fails. -/
def exEnv : Env := ⟨fun _ => none, 0⟩

/-- Example attempt: HTTP 503 with a structured error envelope. -/
def exAttempt503 : Attempt :=
  ⟨.response 503 "Service Unavailable" none
    (some (.obj [("error", .obj [("code", .num 503), ("reason", .str "busy"),
      ("message", .str "overloaded"), ("details", .arr [])])])), false, false⟩

/-- Example attempt: HTTP 400 with a structured error envelope. -/
def exAttempt400 : Attempt :=
  ⟨.response 400 "Bad Request" none
    (some (.obj [("error", .obj [("code", .num 400), ("reason", .str "invalid"),
      ("message", .str "bad input"), ("details", .arr [])])])), false, false⟩

/-- Example attempt: an abort where only the timer signal fired. -/
def exAttemptTimerAbort : Attempt := ⟨.jsRaw "AbortError" "This operation was aborted" false, true, false⟩

/-- Example attempt: an abort where the external signal fired. -/
def exAttemptExtAbort : Attempt := ⟨.jsRaw "AbortError" "This operation was aborted" false, false, true⟩

/-- Example POST request options with a body and no per-call overrides. -/
def exOptsPost : RequestOptions := ⟨"POST", "/payment-codes", some (.obj []), none, none⟩

/-! ## Theorems -/

/-- C3: Retryability rule — network errors are retryable; API errors are
retryable exactly when their status code is one of 429, 500, 502, 503, 504;
every other failure kind (timeouts, validation failures, aborts and other
raw errors) is not retryable. -/
theorem retryability_rule :
    (∀ m, is_retryable_error (.monimeNetwork m) = true)
    ∧ (∀ message code reason details ra,
        is_retryable_error (.monimeApi message code reason details ra) = true ↔
          code = some (.num 429) ∨ code = some (.num 500) ∨ code = some (.num 502) ∨
            code = some (.num 503) ∨ code = some (.num 504))
    ∧ (∀ t u, is_retryable_error (.monimeTimeout t u) = false)
    ∧ (∀ m f, is_retryable_error (.monimeValidation m f) = false)
    ∧ (∀ n m, is_retryable_error (.generic n m) = false) := by
  refine ⟨fun m => rfl, fun message code reason details ra => ?_,
    fun t u => rfl, fun m f => rfl, fun n m => rfl⟩
  simp only [is_retryable_error, apiIsRetryable, Bool.or_eq_true, beq_iff_eq]
  tauto

/-- C5: Retry delay — an API error carrying a parsed retry-after value makes
that value the delay verbatim; otherwise the delay is
`retryDelay * retryBackoff ^ retryIndex` plus a jitter in `[0, 500)`
(where the raw random draw lies in `[0, 1)`). -/
theorem retry_delay_computation (retry_delay retry_backoff rnd : ℚ)
    (retry_index : Nat) (h0 : 0 ≤ rnd) (h1 : rnd < 1) :
    (∀ message code reason details ra,
      calculate_retry_delay retry_delay retry_backoff retry_index
        (.monimeApi message code reason details (some ra)) rnd = (ra : ℚ))
    ∧ (∀ e : JsError,
        (∀ message code reason details ra,
          e ≠ .monimeApi message code reason details (some ra)) →
        ∃ j, 0 ≤ j ∧ j < 500 ∧
          calculate_retry_delay retry_delay retry_backoff retry_index e rnd =
            retry_delay * retry_backoff ^ retry_index + j) := by
  constructor
  · intro message code reason details ra; rfl
  · intro e he
    refine ⟨rnd * 500, mul_nonneg h0 (by norm_num), by nlinarith, ?_⟩
    cases e with
    | monimeApi m c r d ra =>
      cases ra with
      | none => rfl
      | some x => exact absurd rfl (he m c r d x)
    | monimeTimeout t u => rfl
    | monimeNetwork m => rfl
    | monimeValidation m f => rfl
    | generic n m => rfl

/-- Witness for C5 at a concrete input: a network error with random draw
1/4 gets the backoff-plus-jitter delay. -/
theorem retry_delay_computation_witness :
    ∃ j, 0 ≤ j ∧ j < 500 ∧
      calculate_retry_delay 1000 2 1 (.monimeNetwork "conn reset") (1/4) =
        1000 * 2 ^ 1 + j :=
  (retry_delay_computation 1000 2 (1/4) 1 (by norm_num) (by norm_num)).2
    (.monimeNetwork "conn reset") (fun _ _ _ _ _ h => JsError.noConfusion h)

/-- C8: a response body that fails to parse as JSON — whatever the status,
2xx included — raises an API error with reason `"invalid_json"`, empty
details, and the original HTTP status as the error code. -/
theorem invalid_json_classification (env : Env) (timeout : ℚ) (url : String)
    (hasExternal : Bool) (status : Nat) (statusText : String)
    (retryAfterHeader : Option String) (ta ea : Bool) :
    execute_request env timeout url hasExternal
        ⟨.response status statusText retryAfterHeader none, ta, ea⟩ =
      .error (.monimeApi
        (some (.str ("Invalid JSON response from server: " ++
          toString status ++ " " ++ statusText)))
        (some (.num status)) (some (.str "invalid_json")) (some (.arr [])) none) := rfl

/-- C9: built headers always carry the space-id header and the bearer
Authorization header; `Content-Type: application/json` is present exactly
when a body is present; and POST requests carry an `Idempotency-Key` equal
to the caller-supplied key, else the generated UUID. -/
theorem header_construction (space_id access_token method : String)
    (body : Option Json) (idempotency_key : Option String) (uuid : String) :
    (build_headers space_id access_token method body idempotency_key uuid).lookup
        "Monime-Space-Id" = some space_id
    ∧ (build_headers space_id access_token method body idempotency_key uuid).lookup
        "Authorization" = some ("Bearer " ++ access_token)
    ∧ ((build_headers space_id access_token method body idempotency_key uuid).lookup
        "Content-Type" = some "application/json" ↔ body.isSome = true)
    ∧ (method = "POST" →
        (build_headers space_id access_token method body idempotency_key uuid).lookup
          "Idempotency-Key" = some (idempotency_key.getD uuid)) := by
  cases body <;> by_cases hm : method = "POST" <;>
    simp [build_headers, hm, List.lookup]

/-- Witness for C9 at a concrete input: a POST with a body gets all four
headers. -/
theorem header_construction_witness :
    (build_headers "sid" "tok" "POST" (some (.obj [])) none "uuid-1").lookup
        "Idempotency-Key" = some "uuid-1"
    ∧ (build_headers "sid" "tok" "POST" (some (.obj [])) none "uuid-1").lookup
        "Content-Type" = some "application/json" :=
  ⟨(header_construction "sid" "tok" "POST" (some (.obj [])) none "uuid-1").2.2.2 rfl,
    (header_construction "sid" "tok" "POST" (some (.obj [])) none "uuid-1").2.2.1.mpr rfl⟩

/-- C10: an integer-form `Retry-After` header — negative or zero included —
parses to `n * 1000` milliseconds, and `calculate_retry_delay` uses that
value verbatim; only the HTTP-date form is clamped away when the computed
delay is non-positive. -/
theorem retry_after_integer_not_clamped (env : Env) (s : String) (n : Int)
    (hs : parseIntJS s = some n) :
    parse_retry_after env (some s) = some (n * 1000)
    ∧ (∀ (retry_delay retry_backoff rnd : ℚ) (retry_index : Nat)
        (message code reason details : Option Json),
        calculate_retry_delay retry_delay retry_backoff retry_index
          (.monimeApi message code reason details (some (n * 1000))) rnd =
          ((n * 1000 : Int) : ℚ))
    ∧ (∀ (s2 : String) (d : Int), s2 ≠ "" → parseIntJS s2 = none →
        env.dateParse s2 = some d → d - env.now ≤ 0 →
        parse_retry_after env (some s2) = none) := by
  refine ⟨?_, fun _ _ _ _ _ _ _ _ => rfl, ?_⟩
  · have hne : s ≠ "" := by
      intro h; subst h; simp [parseIntJS, digitsVal] at hs
    simp [parse_retry_after, hne, hs]
  · intro s2 d h2 hp hd hle
    simp only [parse_retry_after, if_neg h2, hp, hd]
    rw [if_neg (by omega)]

/-- Helper: `URLSearchParams.set` appends when the key is not yet present. -/
theorem searchParamsSet_of_not_mem (acc : List (String × String)) (k v : String)
    (h : ∀ q ∈ acc, q.1 ≠ k) : searchParamsSet acc k v = acc ++ [(k, v)] := by
  have hany : (acc.any fun p => decide (p.1 = k)) = false := by
    rw [List.any_eq_false]
    intro q hq
    simpa using h q hq
  simp [searchParamsSet, hany]

/-- Helper: with pairwise-distinct keys none of which occurs in the
accumulator, folding `URLSearchParams.set` over the defined entries just
appends them in order (undefined entries are skipped). -/
theorem foldl_searchParamsSet (ps : List (String × Option ParamVal))
    (acc : List (String × String)) (hnd : (ps.map Prod.fst).Nodup)
    (hdisj : ∀ p ∈ ps, ∀ q ∈ acc, q.1 ≠ p.1) :
    ps.foldl
        (fun acc p =>
          match p.2 with
          | none => acc
          | some v => searchParamsSet acc p.1 v.jsString) acc =
      acc ++ ps.filterMap (fun p => p.2.map (fun v => (p.1, v.jsString))) := by
  induction ps generalizing acc with
  | nil => simp
  | cons hd tl ih =>
    obtain ⟨k, v⟩ := hd
    simp only [List.map_cons, List.nodup_cons] at hnd
    obtain ⟨hk, hnd'⟩ := hnd
    cases v with
    | none =>
      simp only [List.foldl_cons, List.filterMap_cons]
      exact ih acc hnd' (fun p hp q hq => hdisj p (List.mem_cons_of_mem _ hp) q hq)
    | some x =>
      simp only [List.foldl_cons, List.filterMap_cons, Option.map_some]
      rw [searchParamsSet_of_not_mem acc k x.jsString
        (fun q hq => hdisj (k, some x) (List.mem_cons_self _ _) q hq)]
      rw [ih (acc ++ [(k, x.jsString)]) hnd' ?_]
      · simp
      · intro p hp q hq
        rcases List.mem_append.mp hq with hq | hq
        · exact hdisj p (List.mem_cons_of_mem _ hp) q hq
        · simp only [List.mem_singleton] at hq
          subst hq
          intro hqe
          apply hk
          have hkp : k = p.1 := hqe
          rw [hkp]
          exact List.mem_map_of_mem Prod.fst hp

/-- C6: the final URL is the base URL, then `/v1`, then the path, and — when
a params object is given — the form-encoded query string of exactly the
entries whose value is defined, preceded by `?` when non-empty; an entry
whose value is undefined contributes no key at all to the query string. -/
theorem url_construction (base_url path : String)
    (ps : List (String × Option ParamVal)) (hnd : (ps.map Prod.fst).Nodup) :
    build_url base_url path none = base_url ++ "/" ++ API_VERSION ++ path
    ∧ build_url base_url path (some ps) =
        (if searchParamsToString
              (ps.filterMap (fun p => p.2.map (fun v => (p.1, v.jsString)))) = ""
          then base_url ++ "/" ++ API_VERSION ++ path
          else base_url ++ "/" ++ API_VERSION ++ path ++ "?" ++
            searchParamsToString
              (ps.filterMap (fun p => p.2.map (fun v => (p.1, v.jsString)))))
    ∧ ∀ k, (k, none) ∈ ps →
        ∀ w, (k, w) ∉ ps.filterMap (fun p => p.2.map (fun v => (p.1, v.jsString))) := by
  refine ⟨rfl, ?_, ?_⟩
  · show (let url := base_url ++ "/" ++ API_VERSION ++ path
      let search_params := ps.foldl
        (fun acc p =>
          match p.2 with
          | none => acc
          | some v => searchParamsSet acc p.1 v.jsString) []
      let query_string := searchParamsToString search_params
      if query_string = "" then url else url ++ "?" ++ query_string) = _
    rw [foldl_searchParamsSet ps [] hnd (by simp)]
    rfl
  · intro k hk w hw
    obtain ⟨p, hp, hpe⟩ := List.mem_filterMap.mp hw
    obtain ⟨pk, pv⟩ := p
    cases pv with
    | none => simp at hpe
    | some x =>
      rw [Option.map_some'] at hpe
      injection hpe with hpair
      have hfst : pk = k := by simpa using congrArg Prod.fst hpair
      have heq : (pk, some x) = (k, (none : Option ParamVal)) :=
        List.inj_on_of_nodup_map hnd hp hk (by simpa using hfst)
      exact Option.noConfusion (congrArg Prod.snd heq)

/-- Witness for C6 at the spec's concrete input: params `{a: "x", b: undefined}`
produce the query string `a=x`, and `b` contributes no key. -/
theorem url_construction_witness :
    build_url "https://api.monime.io" "/payment-codes"
        (some [("a", some (.str "x")), ("b", none)]) =
      "https://api.monime.io/v1/payment-codes?a=x"
    ∧ ∀ w, ("b", w) ∉
        [("a", some (ParamVal.str "x")), ("b", none)].filterMap
          (fun p => p.2.map (fun v => (p.1, v.jsString))) := by
  have h := url_construction "https://api.monime.io" "/payment-codes"
    [("a", some (.str "x")), ("b", none)] (by simp)
  refine ⟨?_, h.2.2 "b" (by simp)⟩
  rw [h.2.1]
  rfl

/-- C2: when an attempt ends in an abort, the failure is a
`MonimeTimeoutError` (carrying the timeout and URL) exactly when the
timer-backed source fired and the external token (if any) did not, while a
fired external token propagates the original abort error unchanged; in both
cases the retry loop re-raises at once — the attempt counter of the rest of
the loop is 1 and no delay is slept. -/
theorem timeout_vs_external_cancellation (cfg : ClientCfg) (env : Env) (url : String)
    (headers : List (String × String)) (timeout : ℚ) (total fuel k : Nat)
    (hasExternal : Bool) (attempts : Nat → Attempt) (rnd : Nat → ℚ)
    (msg : String) (t : Bool)
    (hfetch : (attempts k).fetch = .jsRaw "AbortError" msg t) :
    ((0 < timeout ∧ (attempts k).timerAborted = true) ∧
        ¬(hasExternal = true ∧ (attempts k).extAborted = true) →
      execute_request env timeout url hasExternal (attempts k) =
          .error (.monimeTimeout timeout url)
        ∧ retryGo cfg env url headers timeout total hasExternal attempts rnd k (fuel + 1) =
            ⟨.error (.monimeTimeout timeout url), 1, [], [headers]⟩)
    ∧ (hasExternal = true ∧ (attempts k).extAborted = true →
      execute_request env timeout url hasExternal (attempts k) =
          .error (.generic "AbortError" msg)
        ∧ retryGo cfg env url headers timeout total hasExternal attempts rnd k (fuel + 1) =
            ⟨.error (.generic "AbortError" msg), 1, [], [headers]⟩) := by
  have hexec : execute_request env timeout url hasExternal (attempts k) =
      .error (classifyCatch timeout url hasExternal (attempts k) (.raw "AbortError" msg t)) := by
    unfold execute_request
    rw [hfetch]
    rfl
  constructor
  · intro h1
    have he : execute_request env timeout url hasExternal (attempts k) =
        .error (.monimeTimeout timeout url) := by
      rw [hexec]
      simp only [classifyCatch, if_true]
      rw [if_pos h1]
    refine ⟨he, ?_⟩
    simp [retryGo, he, JsError.errName, JsError.isTimeoutErr]
  · intro h2
    have he : execute_request env timeout url hasExternal (attempts k) =
        .error (.generic "AbortError" msg) := by
      rw [hexec]
      simp only [classifyCatch, if_true]
      rw [if_neg (by tauto)]
    refine ⟨he, ?_⟩
    obtain ⟨hx, hea⟩ := h2
    subst hx
    simp [retryGo, he, JsError.errName, hea]

/-- Witness for C2 at concrete inputs: with timeout 1000 and only the timer
fired, the attempt yields the timeout failure; with the external token
fired, the original abort error is propagated unchanged. -/
theorem timeout_vs_external_cancellation_witness :
    execute_request exEnv 1000 "https://api.monime.io/v1/p" false exAttemptTimerAbort =
        .error (.monimeTimeout 1000 "https://api.monime.io/v1/p")
    ∧ execute_request exEnv 1000 "https://api.monime.io/v1/p" true exAttemptExtAbort =
        .error (.generic "AbortError" "This operation was aborted") :=
  ⟨((timeout_vs_external_cancellation exCfg exEnv "https://api.monime.io/v1/p" [] 1000 3 1 0
      false (fun _ => exAttemptTimerAbort) (fun _ => 0) "This operation was aborted" false
      rfl).1 ⟨⟨by norm_num, rfl⟩, by simp⟩).1,
    ((timeout_vs_external_cancellation exCfg exEnv "https://api.monime.io/v1/p" [] 1000 3 1 0
      true (fun _ => exAttemptExtAbort) (fun _ => 0) "This operation was aborted" false
      rfl).2 ⟨rfl, rfl⟩).1⟩

/-- Helper: the retry loop hands the same fixed header list to every attempt:
the sent-header trace is `attemptsMade` copies of `headers`. -/
theorem retryGo_sentHeaders_replicate (cfg : ClientCfg) (env : Env) (url : String)
    (headers : List (String × String)) (timeout : ℚ) (total : Nat) (hasExternal : Bool)
    (attempts : Nat → Attempt) (rnd : Nat → ℚ) :
    ∀ fuel k,
      (retryGo cfg env url headers timeout total hasExternal attempts rnd k fuel).sentHeaders =
        List.replicate
          (retryGo cfg env url headers timeout total hasExternal attempts rnd k
            fuel).attemptsMade headers := by
  intro fuel
  induction fuel with
  | zero => intro k; rfl
  | succ f ih =>
    intro k
    simp only [retryGo]
    cases hx : execute_request env timeout url hasExternal (attempts k) with
    | ok v => rfl
    | error e =>
      simp only
      split
      · rfl
      · split
        · rfl
        · split
          · rfl
          · simp [ih (k + 1), List.replicate_succ]

/-- Helper: on a POST, the built headers carry the caller-supplied
idempotency key, else the generated UUID. -/
theorem build_headers_idempotency (space_id access_token : String) (body : Option Json)
    (key : Option String) (uuid : String) :
    (build_headers space_id access_token "POST" body key uuid).lookup "Idempotency-Key" =
      some (key.getD uuid) := by
  cases body <;> simp [build_headers, List.lookup]

/-- C4: for a logical POST call, every attempt sends exactly the header list
built once before the first attempt, so the `Idempotency-Key` value — the
caller-supplied key if given, else the UUID generated once — is identical
across all attempts and is never regenerated between retries. -/
theorem idempotency_key_stable (cfg : ClientCfg) (env : Env) (opts : RequestOptions)
    (uuid : String) (attempts : Nat → Attempt) (rnd : Nat → ℚ)
    (hpost : opts.method = "POST") :
    (request cfg env opts uuid attempts rnd).sentHeaders =
      List.replicate (request cfg env opts uuid attempts rnd).attemptsMade
        (build_headers cfg.space_id cfg.access_token opts.method opts.body
          (opts.config.bind (fun c => c.idempotencyKey)) uuid)
    ∧ ∀ h ∈ (request cfg env opts uuid attempts rnd).sentHeaders,
        h.lookup "Idempotency-Key" =
          some ((opts.config.bind (fun c => c.idempotencyKey)).getD uuid) := by
  have hrep := retryGo_sentHeaders_replicate cfg env
    (build_url cfg.base_url opts.path opts.params)
    (build_headers cfg.space_id cfg.access_token opts.method opts.body
      (opts.config.bind (fun c => c.idempotencyKey)) uuid)
    ((opts.config.bind (fun c => c.timeout)).getD cfg.timeout)
    (1 + (opts.config.bind (fun c => c.retries)).getD cfg.retries)
    ((opts.config.map (fun c => c.hasSignal)).getD false) attempts rnd
    (1 + (opts.config.bind (fun c => c.retries)).getD cfg.retries) 1
  have hreq : (request cfg env opts uuid attempts rnd).sentHeaders =
      List.replicate (request cfg env opts uuid attempts rnd).attemptsMade
        (build_headers cfg.space_id cfg.access_token opts.method opts.body
          (opts.config.bind (fun c => c.idempotencyKey)) uuid) := hrep
  refine ⟨hreq, ?_⟩
  intro h hm
  rw [hreq] at hm
  have heq := List.eq_of_mem_replicate hm
  rw [heq, hpost]
  exact build_headers_idempotency cfg.space_id cfg.access_token opts.body
    (opts.config.bind (fun c => c.idempotencyKey)) uuid

/-- Witness for C4 at a concrete input: a POST whose three attempts all hit
503 sends three identical header lists, all carrying the once-generated
UUID as `Idempotency-Key`, and indeed made 3 attempts. -/
theorem idempotency_key_stable_witness :
    (request exCfg exEnv exOptsPost "uuid-1" (fun _ => exAttempt503)
        (fun _ => 0)).sentHeaders =
      List.replicate
        (request exCfg exEnv exOptsPost "uuid-1" (fun _ => exAttempt503)
          (fun _ => 0)).attemptsMade
        (build_headers exCfg.space_id exCfg.access_token exOptsPost.method exOptsPost.body
          (exOptsPost.config.bind (fun c => c.idempotencyKey)) "uuid-1")
    ∧ (request exCfg exEnv exOptsPost "uuid-1" (fun _ => exAttempt503)
        (fun _ => 0)).attemptsMade = 3 :=
  ⟨(idempotency_key_stable exCfg exEnv exOptsPost "uuid-1" (fun _ => exAttempt503)
      (fun _ => 0) rfl).1, by decide⟩

/-- C7 counterexample: a non-2xx response whose parsed body is
`{"error": "boom"}` does not match the structured error envelope, yet the
executor does not raise the generic `http_error` API error the claim
demands — because `data.error` is truthy it takes the structured path and
raises an API error whose message, code, reason and details are all
undefined. -/
theorem non2xx_classification_counterexample :
    execute_request exEnv 1000 "https://api.monime.io/v1/p" false
        ⟨.response 418 "teapot" none (some (.obj [("error", .str "boom")])), false, false⟩ =
      .error (.monimeApi none none none none none)
    ∧ JsError.monimeApi none none none none none ≠
        .monimeApi (some (.str "HTTP 418: teapot")) (some (.num 418))
          (some (.str "http_error")) (some (.arr [])) none :=
  ⟨rfl, by simp⟩

/-- C7 amended: for a non-2xx response with a parsed JSON body, the branch
is chosen by JavaScript truthiness of the body's `error` property rather
than by a full envelope match: a truthy `error` yields an API error
carrying the body's `error.message`, `error.code`, `error.reason`,
`error.details` (each possibly undefined) plus the parsed retry-after
delay; a `null` body makes the `error` property access throw, surfacing as
a network error; any other body yields the generic API error with the raw
HTTP status as its code, reason `"http_error"`, empty details, plus the
parsed retry-after delay. -/
theorem non2xx_classification (env : Env) (timeout : ℚ) (url : String)
    (hasExternal : Bool) (status : Nat) (statusText : String)
    (retryAfterHeader : Option String) (ta ea : Bool) (data : Json)
    (hstatus : ¬(200 ≤ status ∧ status < 300)) :
    (data = .null →
      execute_request env timeout url hasExternal
          ⟨.response status statusText retryAfterHeader (some data), ta, ea⟩ =
        .error (.monimeNetwork "Network error: Cannot read properties of null (reading 'error')"))
    ∧ (data ≠ .null → truthyOpt (data.getProp "error") = true →
      execute_request env timeout url hasExternal
          ⟨.response status statusText retryAfterHeader (some data), ta, ea⟩ =
        .error (.monimeApi (((data.getProp "error").getD .null).getProp "message")
          (((data.getProp "error").getD .null).getProp "code")
          (((data.getProp "error").getD .null).getProp "reason")
          (((data.getProp "error").getD .null).getProp "details")
          (parse_retry_after env retryAfterHeader)))
    ∧ (data ≠ .null → truthyOpt (data.getProp "error") = false →
      execute_request env timeout url hasExternal
          ⟨.response status statusText retryAfterHeader (some data), ta, ea⟩ =
        .error (.monimeApi (some (.str ("HTTP " ++ toString status ++ ": " ++ statusText)))
          (some (.num status)) (some (.str "http_error")) (some (.arr []))
          (parse_retry_after env retryAfterHeader))) := by
  refine ⟨?_, ?_, ?_⟩
  · intro hnull
    subst hnull
    simp only [execute_request, tryExecute]
    rw [if_neg hstatus]
    rfl
  · intro hnn htr
    simp only [execute_request, tryExecute]
    rw [if_neg hstatus]
    cases data with
    | null => exact absurd rfl hnn
    | bool b => rw [if_pos htr]; rfl
    | num n => rw [if_pos htr]; rfl
    | str s => rw [if_pos htr]; rfl
    | arr xs => rw [if_pos htr]; rfl
    | obj fs => rw [if_pos htr]; rfl
  · intro hnn hfa
    simp only [execute_request, tryExecute]
    rw [if_neg hstatus]
    cases data with
    | null => exact absurd rfl hnn
    | bool b => rw [if_neg (by simp [hfa])]; rfl
    | num n => rw [if_neg (by simp [hfa])]; rfl
    | str s => rw [if_neg (by simp [hfa])]; rfl
    | arr xs => rw [if_neg (by simp [hfa])]; rfl
    | obj fs => rw [if_neg (by simp [hfa])]; rfl

/-- Witness for C7's amended theorem at a concrete input: a 503 with a full
structured envelope yields the API error carrying the envelope's four
fields. -/
theorem non2xx_classification_witness :
    execute_request exEnv 1000 "u" false exAttempt503 =
      .error (.monimeApi (some (.str "overloaded")) (some (.num 503)) (some (.str "busy"))
        (some (.arr [])) none) := by
  have h := (non2xx_classification exEnv 1000 "u" false 503 "Service Unavailable" none false
    false
    (.obj [("error", .obj [("code", .num 503), ("reason", .str "busy"),
      ("message", .str "overloaded"), ("details", .arr [])])])
    (by decide)).2.1 (by simp) rfl
  exact h

/-- Helper: whichever re-raise branch fires, a failed attempt whose error is
non-retryable — or which happened at the last allowed attempt number —
terminates the loop at once with that error. -/
theorem retryGo_raise (cfg : ClientCfg) (env : Env) (url : String)
    (headers : List (String × String)) (timeout : ℚ) (total : Nat) (hasExternal : Bool)
    (attempts : Nat → Attempt) (rnd : Nat → ℚ) (fuel k : Nat) (e : JsError)
    (hx : execute_request env timeout url hasExternal (attempts k) = .error e)
    (hcond : ¬is_retryable_error e = true ∨ k = total) :
    retryGo cfg env url headers timeout total hasExternal attempts rnd k (fuel + 1) =
      ⟨.error e, 1, [], [headers]⟩ := by
  simp only [retryGo, hx]
  by_cases h1 : e.errName = "AbortError" ∧ hasExternal = true ∧ (attempts k).extAborted = true
  · rw [if_pos h1]
  · rw [if_neg h1]
    by_cases h2 : e.isTimeoutErr = true
    · rw [if_pos h2]
    · rw [if_neg h2, if_pos hcond]

/-- Helper: a retryable error is a network or API error, so it is neither an
abort nor a timeout. -/
theorem retryable_not_abort_timeout (e : JsError) (hre : is_retryable_error e = true) :
    e.errName ≠ "AbortError" ∧ e.isTimeoutErr = false := by
  cases e <;> simp_all [is_retryable_error, JsError.errName, JsError.isTimeoutErr]

/-- Helper: a retryable failure before the last allowed attempt waits the
computed delay for its zero-based retry index and recurses into the next
attempt. -/
theorem retryGo_continue (cfg : ClientCfg) (env : Env) (url : String)
    (headers : List (String × String)) (timeout : ℚ) (total : Nat) (hasExternal : Bool)
    (attempts : Nat → Attempt) (rnd : Nat → ℚ) (fuel k : Nat) (e : JsError)
    (hx : execute_request env timeout url hasExternal (attempts k) = .error e)
    (hre : is_retryable_error e = true) (hkt : k ≠ total) :
    retryGo cfg env url headers timeout total hasExternal attempts rnd k (fuel + 1) =
      ⟨(retryGo cfg env url headers timeout total hasExternal attempts rnd (k + 1) fuel).result,
       (retryGo cfg env url headers timeout total hasExternal attempts rnd (k + 1)
         fuel).attemptsMade + 1,
       calculate_retry_delay cfg.retry_delay cfg.retry_backoff (k - 1) e (rnd k) ::
         (retryGo cfg env url headers timeout total hasExternal attempts rnd (k + 1) fuel).delays,
       headers ::
         (retryGo cfg env url headers timeout total hasExternal attempts rnd (k + 1)
           fuel).sentHeaders⟩ := by
  obtain ⟨hname, htime⟩ := retryable_not_abort_timeout e hre
  simp only [retryGo, hx]
  rw [if_neg (by simp [hname]), if_neg (by simp [htime]), if_neg (by simp [hre, hkt])]

/-- Helper: the retry loop performs at most `fuel` attempts. -/
theorem retryGo_attempts_le (cfg : ClientCfg) (env : Env) (url : String)
    (headers : List (String × String)) (timeout : ℚ) (total : Nat) (hasExternal : Bool)
    (attempts : Nat → Attempt) (rnd : Nat → ℚ) :
    ∀ fuel k,
      (retryGo cfg env url headers timeout total hasExternal attempts rnd k
        fuel).attemptsMade ≤ fuel := by
  intro fuel
  induction fuel with
  | zero => intro k; exact Nat.le_refl 0
  | succ f ih =>
    intro k
    cases hx : execute_request env timeout url hasExternal (attempts k) with
    | ok v => simp [retryGo, hx]
    | error e =>
      by_cases hc : ¬is_retryable_error e = true ∨ k = total
      · rw [retryGo_raise cfg env url headers timeout total hasExternal attempts rnd f k e hx hc]
        exact Nat.succ_le_succ (Nat.zero_le f)
      · push_neg at hc
        rw [retryGo_continue cfg env url headers timeout total hasExternal attempts rnd f k e hx
          (by simpa using hc.1) hc.2]
        exact Nat.succ_le_succ (ih (k + 1))

/-- Helper: every slept delay is followed by another attempt, so the loop
makes exactly one more attempt than it sleeps delays (as long as the fuel
matches the remaining budget and is positive). -/
theorem retryGo_attempts_eq_delays (cfg : ClientCfg) (env : Env) (url : String)
    (headers : List (String × String)) (timeout : ℚ) (total : Nat) (hasExternal : Bool)
    (attempts : Nat → Attempt) (rnd : Nat → ℚ) :
    ∀ fuel k, 1 ≤ fuel → k + fuel = total + 1 →
      (retryGo cfg env url headers timeout total hasExternal attempts rnd k
          fuel).attemptsMade =
        (retryGo cfg env url headers timeout total hasExternal attempts rnd k
          fuel).delays.length + 1 := by
  intro fuel
  induction fuel with
  | zero => intro k h1 _; exact absurd h1 (by omega)
  | succ f ih =>
    intro k _ hkf
    cases hx : execute_request env timeout url hasExternal (attempts k) with
    | ok v => simp [retryGo, hx]
    | error e =>
      by_cases hc : ¬is_retryable_error e = true ∨ k = total
      · rw [retryGo_raise cfg env url headers timeout total hasExternal attempts rnd f k e hx hc]
        rfl
      · push_neg at hc
        rw [retryGo_continue cfg env url headers timeout total hasExternal attempts rnd f k e hx
          (by simpa using hc.1) hc.2]
        have hf : 1 ≤ f := by omega
        have := ih (k + 1) hf (by omega)
        simp [this]

/-- Helper: when the loop's final outcome is a retryable error, the error
escaped at the last allowed attempt, so the whole fuel was consumed. -/
theorem retryGo_error_retryable_full (cfg : ClientCfg) (env : Env) (url : String)
    (headers : List (String × String)) (timeout : ℚ) (total : Nat) (hasExternal : Bool)
    (attempts : Nat → Attempt) (rnd : Nat → ℚ) :
    ∀ fuel k, k + fuel = total + 1 →
      ∀ e, (retryGo cfg env url headers timeout total hasExternal attempts rnd k
          fuel).result = .error e →
        is_retryable_error e = true →
        (retryGo cfg env url headers timeout total hasExternal attempts rnd k
          fuel).attemptsMade = fuel := by
  intro fuel
  induction fuel with
  | zero => intro k _ e _ _; rfl
  | succ f ih =>
    intro k hkf e hres hre
    cases hx : execute_request env timeout url hasExternal (attempts k) with
    | ok v =>
      rw [retryGo] at hres
      simp only [hx] at hres
      exact absurd hres (by simp)
    | error e2 =>
      by_cases hc : ¬is_retryable_error e2 = true ∨ k = total
      · have hr := retryGo_raise cfg env url headers timeout total hasExternal attempts rnd
          f k e2 hx hc
        rw [hr] at hres ⊢
        have he : e2 = e := by simpa using hres
        subst he
        rcases hc with hc | hc
        · exact absurd hre hc
        · subst hc
          have : f = 0 := by omega
          subst this
          rfl
      · push_neg at hc
        have hcont := retryGo_continue cfg env url headers timeout total hasExternal attempts rnd
          f k e2 hx (by simpa using hc.1) hc.2
        rw [hcont] at hres ⊢
        have := ih (k + 1) (by omega) e (by simpa using hres) hre
        simp [this]

/-- Helper: each recorded delay is the `calculate_retry_delay` value for the
failed attempt it followed, at the matching zero-based retry index and
random draw. -/
theorem retryGo_delays_spec (cfg : ClientCfg) (env : Env) (url : String)
    (headers : List (String × String)) (timeout : ℚ) (total : Nat) (hasExternal : Bool)
    (attempts : Nat → Attempt) (rnd : Nat → ℚ) :
    ∀ fuel k i,
      i < (retryGo cfg env url headers timeout total hasExternal attempts rnd k
        fuel).delays.length →
      ∃ e, execute_request env timeout url hasExternal (attempts (k + i)) = .error e ∧
        (retryGo cfg env url headers timeout total hasExternal attempts rnd k
            fuel).delays.get? i =
          some (calculate_retry_delay cfg.retry_delay cfg.retry_backoff (k + i - 1) e
            (rnd (k + i))) := by
  intro fuel
  induction fuel with
  | zero => intro k i hi; exact absurd hi (by simp [retryGo])
  | succ f ih =>
    intro k i hi
    cases hx : execute_request env timeout url hasExternal (attempts k) with
    | ok v =>
      rw [retryGo] at hi
      simp only [hx] at hi
      exact absurd hi (by simp)
    | error e =>
      by_cases hc : ¬is_retryable_error e = true ∨ k = total
      · rw [retryGo_raise cfg env url headers timeout total hasExternal attempts rnd
          f k e hx hc] at hi
        exact absurd hi (by simp)
      · push_neg at hc
        have hcont := retryGo_continue cfg env url headers timeout total hasExternal attempts rnd
          f k e hx (by simpa using hc.1) hc.2
        rw [hcont] at hi ⊢
        rcases i with _ | i2
        · exact ⟨e, by simpa using hx, by simp⟩
        · have hi2 : i2 < (retryGo cfg env url headers timeout total hasExternal attempts rnd
              (k + 1) f).delays.length := by simpa using hi
          obtain ⟨e2, he2, hd⟩ := ih (k + 1) i2 hi2
          have hidx : k + (i2 + 1) = k + 1 + i2 := by omega
          refine ⟨e2, by rw [hidx]; exact he2, ?_⟩
          simpa [hidx] using hd

/-- C1: the retry loop makes at most `1 + effective max-retries` attempts
(per-call override else client default) and at least one; a non-retryable
failure on the first attempt ends the call after exactly one attempt with
that failure re-raised; a retryable failure can only escape on the last
allowed attempt (in particular a retryable failure on the final attempt is
re-raised, not retried); and every retried failure is followed by a wait of
exactly the computed delay for its zero-based retry index before the next
attempt — one more attempt than waits. -/
theorem retry_attempt_budget (cfg : ClientCfg) (env : Env) (opts : RequestOptions)
    (uuid : String) (attempts : Nat → Attempt) (rnd : Nat → ℚ) :
    (request cfg env opts uuid attempts rnd).attemptsMade ≤
        1 + (opts.config.bind (fun c => c.retries)).getD cfg.retries
    ∧ (request cfg env opts uuid attempts rnd).attemptsMade =
        (request cfg env opts uuid attempts rnd).delays.length + 1
    ∧ (∀ e, execute_request env ((opts.config.bind (fun c => c.timeout)).getD cfg.timeout)
          (build_url cfg.base_url opts.path opts.params)
          ((opts.config.map (fun c => c.hasSignal)).getD false) (attempts 1) = .error e →
        is_retryable_error e = false →
        request cfg env opts uuid attempts rnd =
          ⟨.error e, 1, [],
            [build_headers cfg.space_id cfg.access_token opts.method opts.body
              (opts.config.bind (fun c => c.idempotencyKey)) uuid]⟩)
    ∧ (∀ e, (request cfg env opts uuid attempts rnd).result = .error e →
        is_retryable_error e = true →
        (request cfg env opts uuid attempts rnd).attemptsMade =
          1 + (opts.config.bind (fun c => c.retries)).getD cfg.retries)
    ∧ (∀ i, i < (request cfg env opts uuid attempts rnd).delays.length →
        ∃ e, execute_request env ((opts.config.bind (fun c => c.timeout)).getD cfg.timeout)
            (build_url cfg.base_url opts.path opts.params)
            ((opts.config.map (fun c => c.hasSignal)).getD false) (attempts (1 + i)) =
              .error e ∧
          (request cfg env opts uuid attempts rnd).delays.get? i =
            some (calculate_retry_delay cfg.retry_delay cfg.retry_backoff i e (rnd (1 + i)))) := by
  have hrun : request cfg env opts uuid attempts rnd =
      retryGo cfg env (build_url cfg.base_url opts.path opts.params)
        (build_headers cfg.space_id cfg.access_token opts.method opts.body
          (opts.config.bind (fun c => c.idempotencyKey)) uuid)
        ((opts.config.bind (fun c => c.timeout)).getD cfg.timeout)
        (1 + (opts.config.bind (fun c => c.retries)).getD cfg.retries)
        ((opts.config.map (fun c => c.hasSignal)).getD false) attempts rnd 1
        ((opts.config.bind (fun c => c.retries)).getD cfg.retries + 1) := by
    show retryGo cfg env _ _ _ _ _ attempts rnd 1
        (1 + (opts.config.bind (fun c => c.retries)).getD cfg.retries) = _
    rw [Nat.add_comm]
  refine ⟨?_, ?_, ?_, ?_, ?_⟩
  · exact retryGo_attempts_le cfg env (build_url cfg.base_url opts.path opts.params)
      (build_headers cfg.space_id cfg.access_token opts.method opts.body
        (opts.config.bind (fun c => c.idempotencyKey)) uuid)
      ((opts.config.bind (fun c => c.timeout)).getD cfg.timeout)
      (1 + (opts.config.bind (fun c => c.retries)).getD cfg.retries)
      ((opts.config.map (fun c => c.hasSignal)).getD false) attempts rnd
      (1 + (opts.config.bind (fun c => c.retries)).getD cfg.retries) 1
  · exact retryGo_attempts_eq_delays cfg env (build_url cfg.base_url opts.path opts.params)
      (build_headers cfg.space_id cfg.access_token opts.method opts.body
        (opts.config.bind (fun c => c.idempotencyKey)) uuid)
      ((opts.config.bind (fun c => c.timeout)).getD cfg.timeout)
      (1 + (opts.config.bind (fun c => c.retries)).getD cfg.retries)
      ((opts.config.map (fun c => c.hasSignal)).getD false) attempts rnd
      (1 + (opts.config.bind (fun c => c.retries)).getD cfg.retries) 1 (by omega) (by omega)
  · intro e hx hre
    rw [hrun]
    exact retryGo_raise cfg env (build_url cfg.base_url opts.path opts.params)
      (build_headers cfg.space_id cfg.access_token opts.method opts.body
        (opts.config.bind (fun c => c.idempotencyKey)) uuid)
      ((opts.config.bind (fun c => c.timeout)).getD cfg.timeout)
      (1 + (opts.config.bind (fun c => c.retries)).getD cfg.retries)
      ((opts.config.map (fun c => c.hasSignal)).getD false) attempts rnd
      ((opts.config.bind (fun c => c.retries)).getD cfg.retries) 1 e hx
      (Or.inl (by simp [hre]))
  · intro e hres hre
    exact retryGo_error_retryable_full cfg env (build_url cfg.base_url opts.path opts.params)
      (build_headers cfg.space_id cfg.access_token opts.method opts.body
        (opts.config.bind (fun c => c.idempotencyKey)) uuid)
      ((opts.config.bind (fun c => c.timeout)).getD cfg.timeout)
      (1 + (opts.config.bind (fun c => c.retries)).getD cfg.retries)
      ((opts.config.map (fun c => c.hasSignal)).getD false) attempts rnd
      (1 + (opts.config.bind (fun c => c.retries)).getD cfg.retries) 1 (by omega) e hres hre
  · intro i hi
    obtain ⟨e, he, hd⟩ := retryGo_delays_spec cfg env
      (build_url cfg.base_url opts.path opts.params)
      (build_headers cfg.space_id cfg.access_token opts.method opts.body
        (opts.config.bind (fun c => c.idempotencyKey)) uuid)
      ((opts.config.bind (fun c => c.timeout)).getD cfg.timeout)
      (1 + (opts.config.bind (fun c => c.retries)).getD cfg.retries)
      ((opts.config.map (fun c => c.hasSignal)).getD false) attempts rnd
      (1 + (opts.config.bind (fun c => c.retries)).getD cfg.retries) 1 i hi
    refine ⟨e, he, ?_⟩
    have hidx : 1 + i - 1 = i := by omega
    rw [hidx] at hd
    exact hd

/-- Witness for C1 at a concrete input: an HTTP 400 (non-retryable) on the
first attempt ends the call after exactly one attempt, re-raising that API
error, with no delay slept. -/
theorem retry_attempt_budget_witness :
    request exCfg exEnv exOptsPost "uuid-1" (fun _ => exAttempt400) (fun _ => 0) =
      ⟨.error (.monimeApi (some (.str "bad input")) (some (.num 400)) (some (.str "invalid"))
          (some (.arr [])) none), 1, [],
        [build_headers exCfg.space_id exCfg.access_token exOptsPost.method exOptsPost.body
          (exOptsPost.config.bind (fun c => c.idempotencyKey)) "uuid-1"]⟩ :=
  (retry_attempt_budget exCfg exEnv exOptsPost "uuid-1" (fun _ => exAttempt400)
      (fun _ => 0)).2.2.1
    (.monimeApi (some (.str "bad input")) (some (.num 400)) (some (.str "invalid"))
      (some (.arr [])) none) rfl rfl

/-- Witness for C10 at a concrete input: `Retry-After: -5` yields -5000
milliseconds, unclamped. -/
theorem retry_after_integer_not_clamped_witness :
    parse_retry_after ⟨fun _ => none, 0⟩ (some "-5") = some (-5 * 1000) :=
  (retry_after_integer_not_clamped ⟨fun _ => none, 0⟩ "-5" (-5) (by decide)).1

end Monime
